import Mathlib

/-!
Shallow embedding of the giveaway lifecycle manager of `src/giveaway/giveaway.py`
(cog `Giveaway`): the per-record data model, the legacy-field readers
(`_prizes_list`, `_winner_ids_list`, `_winner_count`), the winner draws, and the
state-transforming parts of the timer callbacks, reaction listeners and
administrative commands.  Presentation (embeds, announcements) is out of scope;
channel / message existence and permission checks are passed in as booleans.
`random.sample(pool, k)` is modelled with the randomness made explicit: the
caller supplies `shuffled`, a permutation of the pool, and the sample is its
first `k` elements.  Timestamps are natural-number seconds; the per-record
entries of the in-memory `_end_tasks` map are modelled as two optional armed
delays (`endTask`, `claimTask`).
-/

namespace Giveaway

/-- The four status strings written by the cog. -/
inductive Status
  | active
  | ended
  | claimed
  | cancelled
deriving DecidableEq, Repr

/-- One giveaway document, as stored in the per-guild `giveaways` map.
Fields that legacy documents may lack (`prize`, `prizes`, `winner_id`,
`winner_ids`, `winner_count`, `emoji`, `claim_deadline_ts`) are `Option`s;
`entries`, `claimed_winner_ids` and `claim_seconds` are read in the source
through `or []` / `or 0`, so their Python `None` collapses to the default and
they are modelled plain. -/
structure GiveawayData where
  channel_id : Nat
  host_id : Nat
  prize : Option String
  prizes : Option (List String)
  end_ts : Nat
  emoji : Option String
  entries : List Nat
  winner_id : Option Nat
  winner_ids : Option (List Nat)
  winner_count : Option Int
  claimed_winner_ids : List Nat
  status : Status
  claim_enabled : Bool
  claim_seconds : Nat
  claim_deadline_ts : Option Nat
  claimed : Bool
deriving DecidableEq, Repr

/-- `data.get("emoji", "\U0001f389")`. -/
def emojiOf (d : GiveawayData) : String :=
  d.emoji.getD "🎉"

/-- `str.strip()`: drop whitespace from both ends (an executable model of
the Python strip used by `_prizes_list`, written with structural recursion
so that concrete instances evaluate). -/
def pyStrip (s : String) : String :=
  ⟨((s.data.dropWhile Char.isWhitespace).reverse.dropWhile Char.isWhitespace).reverse⟩

/-- Legacy branch of `_prizes_list`: `p = data.get("prize")`;
`if p and str(p).strip(): return [str(p).strip()]`; `return []`. -/
def legacyPrizeList (d : GiveawayData) : List String :=
  match d.prize with
  | some p => if pyStrip p = "" then [] else [pyStrip p]
  | none => []

/-- `_prizes_list`: an existing non-empty `prizes` list is stripped and
filtered for non-blank items (Python truthiness: an empty list falls through
to the legacy single `prize`). -/
def prizesList (d : GiveawayData) : List String :=
  match d.prizes with
  | some l =>
      if l.isEmpty then legacyPrizeList d
      else l.filterMap (fun p => if pyStrip p = "" then none else some (pyStrip p))
  | none => legacyPrizeList d

/-- `_winner_count`: `data.get("winner_count")` if it is an int `>= 1`, capped
at 50, else default 1. -/
def winnerCount (d : GiveawayData) : Nat :=
  match d.winner_count with
  | some n => if 1 ≤ n then min n.toNat 50 else 1
  | none => 1

/-- Legacy branch of `_winner_ids_list`: `wid = data.get("winner_id")`;
`if wid is not None: return [int(wid)]`; `return []`. -/
def legacyWinnerList (d : GiveawayData) : List Nat :=
  match d.winner_id with
  | some w => [w]
  | none => []

/-- `_winner_ids_list`: a present non-empty `winner_ids` list is used as-is
(item-level `int(x)` casts and `None` filtering are the identity on the
numeric lists the cog writes); an absent or empty one (Python truthiness)
falls back to the legacy single `winner_id`. -/
def winnerIdsList (d : GiveawayData) : List Nat :=
  match d.winner_ids with
  | some l => if l.isEmpty then legacyWinnerList d else l
  | none => legacyWinnerList d

/-- `random.sample(pool, k)` with explicit randomness: `shuffled` is a
permutation of the pool chosen by the environment; the sample is its first
`k` elements. -/
def pySample (shuffled : List Nat) (k : Nat) : List Nat :=
  shuffled.take k

/-- The initial draw in `_end_giveaway_task`: `winner_ids = []` when there are
no entries, else `random.sample(entries, min(winner_count, len(entries)))`. -/
def drawInitial (d : GiveawayData) (shuffled : List Nat) : List Nat :=
  if d.entries.isEmpty then []
  else pySample shuffled (min (winnerCount d) d.entries.length)

/-- The replacement pool of `_claim_timeout_task` and `reroll`:
`[u for u in entries if u not in winner_ids]`. -/
def replacementPool (d : GiveawayData) : List Nat :=
  d.entries.filter (fun u => decide (u ∉ winnerIdsList d))

/-- The replacement draw: `random.sample(pool, min(winner_count, len(pool)))`. -/
def drawReplacement (d : GiveawayData) (shuffled : List Nat) : List Nat :=
  pySample shuffled (min (winnerCount d) (replacementPool d).length)

/-- Per-record slice of the cog state: the stored document (if any) together
with the record's two `_end_tasks` entries, each an armed delay in seconds. -/
structure GwState where
  record : Option GiveawayData
  endTask : Option Nat
  claimTask : Option Nat
deriving DecidableEq, Repr

/-- `claim_enabled and claim_seconds and winner_ids` in `_end_giveaway_task`. -/
def endClaimOn (d : GiveawayData) (winner_ids : List Nat) : Bool :=
  d.claim_enabled && (d.claim_seconds != 0) && (!winner_ids.isEmpty)

/-- Field writes of `_end_giveaway_task` on the stored document: status
`ended`, winners replaced wholesale, claimed list reset, deadline set iff the
claim system applies (`entries` is written back unchanged in the source). -/
def endedRecord (d : GiveawayData) (now : Nat) (winner_ids : List Nat) : GiveawayData :=
  { d with
    status := Status.ended
    winner_id := winner_ids.head?
    winner_ids := some winner_ids
    claimed_winner_ids := []
    claim_deadline_ts :=
      if endClaimOn d winner_ids then some (now + d.claim_seconds) else none }

/-- `_end_giveaway_task(guild_id, message_id)`, state-transforming part.
The fired end-timer handle is removed (the task's `finally` clause).  A
missing channel or a failed message fetch pops the record from the store and
returns; otherwise the record moves to `ended` with freshly drawn winners,
and the claim-expiry timer is armed when claiming applies. -/
def endGiveawayTask (s : GwState) (channelExists messageExists : Bool)
    (now : Nat) (shuffled : List Nat) : GwState :=
  match s.record with
  | none => { s with endTask := none }
  | some d =>
    if d.status ≠ Status.active then { s with endTask := none }
    else if channelExists = false then { s with record := none, endTask := none }
    else if messageExists = false then { s with record := none, endTask := none }
    else
      let winner_ids := drawInitial d shuffled
      { record := some (endedRecord d now winner_ids)
        endTask := none
        claimTask := if endClaimOn d winner_ids then some d.claim_seconds else s.claimTask }

/-- Field writes of `_claim_timeout_task` on the stored document: winners
replaced with the redraw, claimed list reset, fresh deadline
`time.time() + claim_seconds` (the status stays `ended`). -/
def redrawnRecord (d : GiveawayData) (now : Nat) (new_winner_ids : List Nat) : GiveawayData :=
  { d with
    winner_id := new_winner_ids.head?
    winner_ids := some new_winner_ids
    claimed_winner_ids := []
    claim_deadline_ts := some (now + d.claim_seconds) }

/-- `_claim_timeout_task(guild_id, message_id)`, state-transforming part.
The fired claim-timer handle is removed (the task's `finally` clause).  The
redraw is written to the store before the channel / message lookups, so a
missing channel or message only skips the announcement and the timer re-arm. -/
def claimTimeoutTask (s : GwState) (channelExists messageExists : Bool)
    (now : Nat) (shuffled : List Nat) : GwState :=
  match s.record with
  | none => { s with claimTask := none }
  | some d =>
    if d.status ≠ Status.ended then { s with claimTask := none }
    else if (winnerIdsList d).length ≤ d.claimed_winner_ids.length then
      { s with claimTask := none }
    else if (replacementPool d).isEmpty then { s with claimTask := none }
    else
      let d' := redrawnRecord d now (drawReplacement d shuffled)
      if channelExists = false then { record := some d', endTask := s.endTask, claimTask := none }
      else if messageExists = false then { record := some d', endTask := s.endTask, claimTask := none }
      else if 0 < d.claim_seconds then
        { record := some d', endTask := s.endTask, claimTask := some d.claim_seconds }
      else { record := some d', endTask := s.endTask, claimTask := none }

/-- Field writes of a successful claim click: the participant is appended to
`claimed_winner_ids`; when the claimed list now covers the winner list the
record flips to `claimed` and the `claimed` flag is set. -/
def recordAfterClaim (d : GiveawayData) (userId : Nat) : GiveawayData :=
  let claimed' := d.claimed_winner_ids ++ [userId]
  let fullyClaimed := (winnerIdsList d).length ≤ claimed'.length
  { d with
    claimed_winner_ids := claimed'
    status := if fullyClaimed then Status.claimed else d.status
    claimed := if fullyClaimed then true else d.claimed }

/-- `_handle_claim_click(interaction, message_id)`, state-transforming part.
Rejections (no record, not `ended`, not a winner, already claimed) leave the
state unchanged; a successful claim updates the record and then
unconditionally pops and cancels the record's claim-expiry task. -/
def handleClaimClick (s : GwState) (userId : Nat) : GwState :=
  match s.record with
  | none => s
  | some d =>
    if d.status ≠ Status.ended then s
    else if userId ∉ winnerIdsList d then s
    else if userId ∈ d.claimed_winner_ids then s
    else
      { record := some (recordAfterClaim d userId)
        endTask := s.endTask
        claimTask := none }

/-- `g.get("claim_enabled") and g.get("claim_seconds")` in `reroll`. -/
def rerollClaimOn (d : GiveawayData) : Bool :=
  d.claim_enabled && (d.claim_seconds != 0)

/-- Field writes of `reroll` on the stored document: winners replaced with
the redraw, claimed list reset, status forced back to `ended`, `claimed`
flag cleared, and a fresh deadline when the claim system applies. -/
def rerolledRecord (d : GiveawayData) (now : Nat) (new_winner_ids : List Nat) : GiveawayData :=
  { d with
    winner_id := new_winner_ids.head?
    winner_ids := some new_winner_ids
    claimed_winner_ids := []
    status := Status.ended
    claimed := false
    claim_deadline_ts :=
      if rerollClaimOn d then some (now + d.claim_seconds) else d.claim_deadline_ts }

/-- `reroll` command, state-transforming part (`canManage` is the
`_can_manage` check).  Allowed from `ended` or `claimed`; an empty pool only
sends "No other entries to reroll." and changes nothing. -/
def reroll (s : GwState) (canManage : Bool) (now : Nat) (shuffled : List Nat) : GwState :=
  match s.record with
  | none => s
  | some d =>
    if canManage = false then s
    else if ¬(d.status = Status.ended ∨ d.status = Status.claimed) then s
    else if (replacementPool d).isEmpty then s
    else
      { record := some (rerolledRecord d now (drawReplacement d shuffled))
        endTask := s.endTask
        claimTask := if rerollClaimOn d then some d.claim_seconds else s.claimTask }

/-- `end` command: rejected unless the record exists, the caller can manage
it and it is `active`; then `_cancel_tasks_for` clears both timers and
`_end_giveaway_task` runs. -/
def endCmd (s : GwState) (canManage channelExists messageExists : Bool)
    (now : Nat) (shuffled : List Nat) : GwState :=
  match s.record with
  | none => s
  | some d =>
    if canManage = false then s
    else if d.status ≠ Status.active then s
    else
      endGiveawayTask { s with endTask := none, claimTask := none }
        channelExists messageExists now shuffled

/-- `cancel` command, state-transforming part: allowed from `active` or
`ended`; cancels both outstanding timers and sets the status to `cancelled`
(the other fields, `claim_deadline_ts` included, are left as they are). -/
def cancelCmd (s : GwState) (canManage : Bool) : GwState :=
  match s.record with
  | none => s
  | some d =>
    if canManage = false then s
    else if ¬(d.status = Status.active ∨ d.status = Status.ended) then s
    else
      { record := some { d with status := Status.cancelled }
        endTask := none
        claimTask := none }

/-- `on_raw_reaction_add`, state-transforming part (`userIsBot` covers both
the self-check and the member `bot` flag).  No-op unless the record exists,
is `active`, the emoji matches and the user is not yet entered. -/
def onRawReactionAdd (s : GwState) (userId : Nat) (userIsBot : Bool)
    (emojiUsed : String) : GwState :=
  if userIsBot then s
  else
    match s.record with
    | none => s
    | some d =>
      if d.status ≠ Status.active then s
      else if emojiUsed ≠ emojiOf d then s
      else if userId ∈ d.entries then s
      else { s with record := some { d with entries := d.entries ++ [userId] } }

/-- `on_raw_reaction_remove`, state-transforming part.  No-op unless the
record exists, is `active`, the emoji matches and the user is entered;
removal is `[u for u in entries if u != payload.user_id]`. -/
def onRawReactionRemove (s : GwState) (userId : Nat)
    (emojiUsed : String) : GwState :=
  match s.record with
  | none => s
  | some d =>
    if d.status ≠ Status.active then s
    else if emojiUsed ≠ emojiOf d then s
    else if userId ∉ d.entries then s
    else
      { s with
        record := some { d with entries := d.entries.filter (fun u => decide (u ≠ userId)) } }

/-- Python truthiness of the stored `claim_deadline_ts`. -/
def deadlineTruthy (d : GiveawayData) : Bool :=
  match d.claim_deadline_ts with
  | some dl => dl != 0
  | none => false

/-- `cog_load`, per-record part.  An `active` record gets its end timer armed
with `max(0, end_ts - now)` — `_schedule_end_task` first cancels both of the
record's timers; an `ended`, not fully claimed record with claiming enabled
and a truthy stored deadline gets its claim timer re-armed with
`max(0, claim_deadline_ts - now)`.  Natural subtraction is the `max(0.0, _)`. -/
def cogLoad (s : GwState) (now : Nat) : GwState :=
  match s.record with
  | none => s
  | some d =>
    if d.status = Status.active then
      { s with endTask := some (d.end_ts - now), claimTask := none }
    else if d.status = Status.ended ∧ d.claimed = false then
      if d.claim_enabled && deadlineTruthy d then
        { s with claimTask := some (d.claim_deadline_ts.getD 0 - now) }
      else s
    else s

/-! Concrete records used by counterexamples and witnesses. -/

/-- A freshly launched active giveaway with three entrants and the claim
system enabled. -/
def recActive : GiveawayData :=
  { channel_id := 10, host_id := 1,
    prize := some "Nitro", prizes := some ["Nitro"],
    end_ts := 100, emoji := some "🎉",
    entries := [2, 3, 4], winner_id := none, winner_ids := some [],
    winner_count := some 1, claimed_winner_ids := [],
    status := Status.active, claim_enabled := true, claim_seconds := 60,
    claim_deadline_ts := none, claimed := false }

/-- An ended claim-enabled giveaway with two winners, neither claimed yet. -/
def recEndedTwo : GiveawayData :=
  { recActive with
    status := Status.ended, winner_count := some 2,
    winner_id := some 2, winner_ids := some [2, 3],
    claim_deadline_ts := some 260 }

/-- An ended claim-enabled giveaway with a single unclaimed winner. -/
def recEndedOne : GiveawayData :=
  { recActive with
    status := Status.ended,
    winner_id := some 2, winner_ids := some [2],
    claim_deadline_ts := some 1000 }

/-- A fully claimed giveaway (terminal according to the spec). -/
def recClaimedAll : GiveawayData :=
  { recActive with
    status := Status.claimed,
    winner_id := some 2, winner_ids := some [2],
    claimed_winner_ids := [2], claimed := true,
    claim_deadline_ts := some 260 }

/-- A cancelled giveaway. -/
def recCancelled : GiveawayData :=
  { recActive with status := Status.cancelled }

/-- A legacy document: single `winner_id` / `prize`, no list fields. -/
def recLegacy : GiveawayData :=
  { recActive with
    status := Status.ended,
    prizes := none, prize := some "Nitro",
    winner_ids := none, winner_id := some 9,
    entries := [9, 5] }

/-- The spec invariant `claimedWinners ⊆ winners`, read through the same
legacy-tolerant reader the cog uses. -/
def ClaimSubsetInv (s : GwState) : Prop :=
  ∀ d, s.record = some d → d.claimed_winner_ids ⊆ winnerIdsList d

/-! Helper lemmas about the draws and the replacement pool. -/

theorem replacementPool_mem {d : GiveawayData} {u : Nat} :
    u ∈ replacementPool d ↔ u ∈ d.entries ∧ u ∉ winnerIdsList d := by
  simp [replacementPool]

theorem replacementPool_nodup {d : GiveawayData} (hnd : d.entries.Nodup) :
    (replacementPool d).Nodup :=
  hnd.filter _

theorem pySample_length {shuffled pool : List Nat} (hperm : shuffled.Perm pool)
    {k : Nat} (hk : k ≤ pool.length) : (pySample shuffled k).length = k := by
  rw [pySample, List.length_take, hperm.length_eq, Nat.min_eq_left hk]

theorem pySample_mem {shuffled pool : List Nat} (hperm : shuffled.Perm pool)
    {k u : Nat} (hu : u ∈ pySample shuffled k) : u ∈ pool :=
  hperm.mem_iff.mp ((List.take_sublist k shuffled).subset hu)

theorem pySample_nodup {shuffled pool : List Nat} (hperm : shuffled.Perm pool)
    (hnd : pool.Nodup) {k : Nat} : (pySample shuffled k).Nodup :=
  ((hperm.nodup_iff).mpr hnd).sublist (List.take_sublist k shuffled)

theorem drawInitial_length {d : GiveawayData} {shuffled : List Nat}
    (hperm : shuffled.Perm d.entries) :
    (drawInitial d shuffled).length = min (winnerCount d) d.entries.length := by
  unfold drawInitial
  by_cases he : d.entries.isEmpty
  · rw [if_pos he, List.isEmpty_iff.mp he]
    simp
  · rw [if_neg he]
    exact pySample_length hperm (Nat.min_le_right _ _)

theorem drawInitial_subset {d : GiveawayData} {shuffled : List Nat}
    (hperm : shuffled.Perm d.entries) :
    ∀ u ∈ drawInitial d shuffled, u ∈ d.entries := by
  intro u hu
  unfold drawInitial at hu
  by_cases he : d.entries.isEmpty
  · rw [if_pos he] at hu
    cases hu
  · rw [if_neg he] at hu
    exact pySample_mem hperm hu

theorem drawInitial_nodup {d : GiveawayData} {shuffled : List Nat}
    (hperm : shuffled.Perm d.entries) (hnd : d.entries.Nodup) :
    (drawInitial d shuffled).Nodup := by
  unfold drawInitial
  by_cases he : d.entries.isEmpty
  · rw [if_pos he]
    exact List.nodup_nil
  · rw [if_neg he]
    exact pySample_nodup hperm hnd

theorem drawReplacement_length {d : GiveawayData} {shuffled : List Nat}
    (hperm : shuffled.Perm (replacementPool d)) :
    (drawReplacement d shuffled).length = min (winnerCount d) (replacementPool d).length :=
  pySample_length hperm (Nat.min_le_right _ _)

theorem drawReplacement_mem {d : GiveawayData} {shuffled : List Nat}
    (hperm : shuffled.Perm (replacementPool d)) :
    ∀ u ∈ drawReplacement d shuffled, u ∈ d.entries ∧ u ∉ winnerIdsList d := by
  intro u hu
  exact replacementPool_mem.mp (pySample_mem hperm hu)

theorem drawReplacement_nodup {d : GiveawayData} {shuffled : List Nat}
    (hperm : shuffled.Perm (replacementPool d)) (hnd : d.entries.Nodup) :
    (drawReplacement d shuffled).Nodup :=
  pySample_nodup hperm (replacementPool_nodup hnd)

/-! Preservation of `ClaimSubsetInv` by every operation. -/

theorem winnerIdsList_recordAfterClaim (d : GiveawayData) (u : Nat) :
    winnerIdsList (recordAfterClaim d u) = winnerIdsList d := rfl

theorem claimInv_endGiveawayTask {s : GwState} (hinv : ClaimSubsetInv s)
    (ch msg : Bool) (now : Nat) (shuffled : List Nat) :
    ClaimSubsetInv (endGiveawayTask s ch msg now shuffled) := by
  unfold endGiveawayTask
  rcases hrec : s.record with _ | d <;> dsimp only
  · intro d' hd'
    cases hd'
  · split_ifs <;> intro d' hd' <;>
      first
        | exact hinv d' hd'
        | (cases hd'; exact hinv d hrec)
        | (cases hd'; exact List.nil_subset _)
        | cases hd'

theorem claimInv_claimTimeoutTask {s : GwState} (hinv : ClaimSubsetInv s)
    (ch msg : Bool) (now : Nat) (shuffled : List Nat) :
    ClaimSubsetInv (claimTimeoutTask s ch msg now shuffled) := by
  unfold claimTimeoutTask
  rcases hrec : s.record with _ | d <;> dsimp only
  · intro d' hd'
    cases hd'
  · split_ifs <;> intro d' hd' <;>
      first
        | exact hinv d' hd'
        | (cases hd'; exact hinv d hrec)
        | (cases hd'; exact List.nil_subset _)
        | cases hd'

theorem claimInv_handleClaimClick {s : GwState} (hinv : ClaimSubsetInv s)
    (uid : Nat) : ClaimSubsetInv (handleClaimClick s uid) := by
  unfold handleClaimClick
  rcases hrec : s.record with _ | d <;> dsimp only
  · intro d' hd'
    exact hinv d' hd'
  · by_cases h1 : d.status ≠ Status.ended
    · rw [if_pos h1]
      intro d' hd'
      exact hinv d' hd'
    · rw [if_neg h1]
      by_cases h2 : uid ∉ winnerIdsList d
      · rw [if_pos h2]
        intro d' hd'
        exact hinv d' hd'
      · rw [if_neg h2]
        by_cases h3 : uid ∈ d.claimed_winner_ids
        · rw [if_pos h3]
          intro d' hd'
          exact hinv d' hd'
        · rw [if_neg h3]
          intro d' hd'
          cases hd'
          rw [winnerIdsList_recordAfterClaim]
          intro a ha
          rcases List.mem_append.mp ha with ha | ha
          · exact hinv d hrec ha
          · rw [List.mem_singleton.mp ha]
            exact not_not.mp h2

theorem claimInv_reroll {s : GwState} (hinv : ClaimSubsetInv s)
    (cm : Bool) (now : Nat) (shuffled : List Nat) :
    ClaimSubsetInv (reroll s cm now shuffled) := by
  unfold reroll
  rcases hrec : s.record with _ | d <;> dsimp only
  · intro d' hd'
    exact hinv d' hd'
  · split_ifs <;> intro d' hd' <;>
      first
        | exact hinv d' hd'
        | (cases hd'; exact hinv d hrec)
        | (cases hd'; exact List.nil_subset _)
        | cases hd'

theorem claimInv_cancelCmd {s : GwState} (hinv : ClaimSubsetInv s)
    (cm : Bool) : ClaimSubsetInv (cancelCmd s cm) := by
  unfold cancelCmd
  rcases hrec : s.record with _ | d <;> dsimp only
  · intro d' hd'
    exact hinv d' hd'
  · split_ifs <;> intro d' hd' <;>
      first
        | exact hinv d' hd'
        | (cases hd'; exact hinv d hrec)
        | cases hd'

theorem claimInv_endCmd {s : GwState} (hinv : ClaimSubsetInv s)
    (cm ch msg : Bool) (now : Nat) (shuffled : List Nat) :
    ClaimSubsetInv (endCmd s cm ch msg now shuffled) := by
  unfold endCmd
  rcases hrec : s.record with _ | d <;> dsimp only
  · intro d' hd'
    exact hinv d' hd'
  · split_ifs <;>
      first
        | (intro d' hd'; exact hinv d' hd')
        | exact claimInv_endGiveawayTask
            (fun e he => by cases he; exact hinv d hrec) ch msg now shuffled

theorem claimInv_onRawReactionAdd {s : GwState} (hinv : ClaimSubsetInv s)
    (uid : Nat) (bot : Bool) (em : String) :
    ClaimSubsetInv (onRawReactionAdd s uid bot em) := by
  unfold onRawReactionAdd
  split_ifs with h0
  · exact hinv
  · rcases hrec : s.record with _ | d <;> dsimp only
    · intro d' hd'
      exact hinv d' hd'
    · split_ifs <;> intro d' hd' <;>
        first
          | exact hinv d' hd'
          | (cases hd'; exact hinv d hrec)
          | cases hd'

theorem claimInv_onRawReactionRemove {s : GwState} (hinv : ClaimSubsetInv s)
    (uid : Nat) (em : String) :
    ClaimSubsetInv (onRawReactionRemove s uid em) := by
  unfold onRawReactionRemove
  rcases hrec : s.record with _ | d <;> dsimp only
  · intro d' hd'
    exact hinv d' hd'
  · split_ifs <;> intro d' hd' <;>
      first
        | exact hinv d' hd'
        | (cases hd'; exact hinv d hrec)
        | cases hd'

theorem claimInv_cogLoad {s : GwState} (hinv : ClaimSubsetInv s)
    (now : Nat) : ClaimSubsetInv (cogLoad s now) := by
  unfold cogLoad
  rcases hrec : s.record with _ | d <;> dsimp only
  · intro d' hd'
    exact hinv d' hd'
  · split_ifs <;> intro d' hd' <;>
      first
        | exact hinv d' hd'
        | (cases hd'; exact hinv d hrec)
        | cases hd'

/-! Claim theorems. -/

/-- C1 counterexample: when the end timer fires for an `active` giveaway whose
hosting channel no longer exists, `_end_giveaway_task` pops the record from
the Store — the record is removed automatically, the `ended` transition is
never applied, contradicting both "the state transition still applies" and
"records are removed from the Store only by explicit administrative
deletion". -/
theorem c1_end_timer_deletes_record :
    recActive.status = Status.active ∧
    (endGiveawayTask ⟨some recActive, some 0, none⟩ false true 200 [3, 2, 4]).record = none ∧
    (endGiveawayTask ⟨some recActive, some 0, none⟩ true false 200 [3, 2, 4]).record = none := by
  decide

/-- C1 (amended): the "state is authoritative, presentation is best-effort"
policy holds only for the claim-expiry timer — `_claim_timeout_task` writes
the identical record regardless of channel/message existence, skipping only
the announcement and the timer re-arm — while the end timer, on a missing
channel or message, removes the `active` record from the Store without
applying any transition. -/
theorem c1_presentation_best_effort (s : GwState) (now : Nat) (shuffled : List Nat) :
    (∀ ch msg : Bool,
      (claimTimeoutTask s ch msg now shuffled).record =
        (claimTimeoutTask s true true now shuffled).record) ∧
    ∀ d, s.record = some d → d.status = Status.active →
      (endGiveawayTask s false true now shuffled).record = none ∧
      (endGiveawayTask s true false now shuffled).record = none := by
  constructor
  · intro ch msg
    unfold claimTimeoutTask
    rcases hrec : s.record with _ | d <;> dsimp only
    by_cases h1 : d.status ≠ Status.ended
    · simp only [if_pos h1]
    · simp only [if_neg h1]
      by_cases h2 : (winnerIdsList d).length ≤ d.claimed_winner_ids.length
      · simp only [if_pos h2]
      · simp only [if_neg h2]
        by_cases h3 : (replacementPool d).isEmpty = true
        · simp only [if_pos h3]
        · simp only [if_neg h3]
          cases ch <;> cases msg <;> split_ifs <;> rfl
  · intro d hrec hact
    refine ⟨?_, ?_⟩ <;>
      simp [endGiveawayTask, hrec, hact]

/-- C1 witness: the amended statement evaluated on a concrete ended giveaway
with a missing channel (claim-expiry redraw applies anyway) and a concrete
active one (end timer deletes the record). -/
theorem c1_presentation_best_effort_witness :
    ((claimTimeoutTask ⟨some recEndedOne, none, some 60⟩ false false 300 [3, 4]).record =
        (claimTimeoutTask ⟨some recEndedOne, none, some 60⟩ true true 300 [3, 4]).record) ∧
    (endGiveawayTask ⟨some recActive, some 0, none⟩ false true 200 [3, 2, 4]).record = none ∧
    (endGiveawayTask ⟨some recActive, some 0, none⟩ true false 200 [3, 2, 4]).record = none :=
  ⟨(c1_presentation_best_effort ⟨some recEndedOne, none, some 60⟩ 300 [3, 4]).1 false false,
   (c1_presentation_best_effort ⟨some recActive, some 0, none⟩ 200 [3, 2, 4]).2
      recActive rfl rfl⟩

/-- C2 counterexample: `reroll` is accepted on a record whose status is
`claimed` with every winner claimed, and it replaces the winner list, clears
`claimedWinners` and moves the status back to `ended` — so `claimed` is not
terminal as the claim states. -/
theorem c2_reroll_mutates_claimed_record :
    recClaimedAll.status = Status.claimed ∧
    recClaimedAll.claimed_winner_ids = [2] ∧
    (reroll ⟨some recClaimedAll, none, none⟩ true 300 [3, 4]).record.map
      GiveawayData.status = some Status.ended ∧
    (reroll ⟨some recClaimedAll, none, none⟩ true 300 [3, 4]).record.map
      GiveawayData.winner_ids = some (some [3]) ∧
    (reroll ⟨some recClaimedAll, none, none⟩ true 300 [3, 4]).record.map
      GiveawayData.claimed_winner_ids = some [] := by
  decide

/-- C2 (amended): `cancelled` is terminal — no operation (end timer, claim
timer, claim click, reroll, cancel, explicit end, entry add/remove) changes a
cancelled record — and a `claimed` record is changed by no operation except
the host `reroll` command, which moves it back to `ended` with fresh winners
(see the counterexample). -/
theorem c2_terminal_statuses (s : GwState) (d : GiveawayData)
    (hrec : s.record = some d)
    (ch msg cm bot : Bool) (now uid : Nat) (shuffled : List Nat) (em : String) :
    (d.status = Status.cancelled →
      (endGiveawayTask s ch msg now shuffled).record = s.record ∧
      (claimTimeoutTask s ch msg now shuffled).record = s.record ∧
      (handleClaimClick s uid).record = s.record ∧
      (reroll s cm now shuffled).record = s.record ∧
      (cancelCmd s cm).record = s.record ∧
      (endCmd s cm ch msg now shuffled).record = s.record ∧
      (onRawReactionAdd s uid bot em).record = s.record ∧
      (onRawReactionRemove s uid em).record = s.record) ∧
    (d.status = Status.claimed →
      (endGiveawayTask s ch msg now shuffled).record = s.record ∧
      (claimTimeoutTask s ch msg now shuffled).record = s.record ∧
      (handleClaimClick s uid).record = s.record ∧
      (cancelCmd s cm).record = s.record ∧
      (endCmd s cm ch msg now shuffled).record = s.record ∧
      (onRawReactionAdd s uid bot em).record = s.record ∧
      (onRawReactionRemove s uid em).record = s.record) := by
  constructor <;> intro hc
  · refine ⟨?_, ?_, ?_, ?_, ?_, ?_, ?_, ?_⟩
    · simp [endGiveawayTask, hrec, hc]
    · simp [claimTimeoutTask, hrec, hc]
    · simp [handleClaimClick, hrec, hc]
    · cases cm <;> simp [reroll, hrec, hc]
    · cases cm <;> simp [cancelCmd, hrec, hc]
    · cases cm <;> simp [endCmd, hrec, hc]
    · cases bot <;> simp [onRawReactionAdd, hrec, hc]
    · simp [onRawReactionRemove, hrec, hc]
  · refine ⟨?_, ?_, ?_, ?_, ?_, ?_, ?_⟩
    · simp [endGiveawayTask, hrec, hc]
    · simp [claimTimeoutTask, hrec, hc]
    · simp [handleClaimClick, hrec, hc]
    · cases cm <;> simp [cancelCmd, hrec, hc]
    · cases cm <;> simp [endCmd, hrec, hc]
    · cases bot <;> simp [onRawReactionAdd, hrec, hc]
    · simp [onRawReactionRemove, hrec, hc]

/-- C2 witness: the amended statement fired on a concrete cancelled record
and on a concrete fully claimed record. -/
theorem c2_terminal_statuses_witness :
    ((endGiveawayTask ⟨some recCancelled, none, none⟩ true true 7 [9]).record =
        (⟨some recCancelled, none, none⟩ : GwState).record ∧
      (claimTimeoutTask ⟨some recCancelled, none, none⟩ true true 7 [9]).record =
        (⟨some recCancelled, none, none⟩ : GwState).record ∧
      (handleClaimClick ⟨some recCancelled, none, none⟩ 2).record =
        (⟨some recCancelled, none, none⟩ : GwState).record ∧
      (reroll ⟨some recCancelled, none, none⟩ true 7 [9]).record =
        (⟨some recCancelled, none, none⟩ : GwState).record ∧
      (cancelCmd ⟨some recCancelled, none, none⟩ true).record =
        (⟨some recCancelled, none, none⟩ : GwState).record ∧
      (endCmd ⟨some recCancelled, none, none⟩ true true true 7 [9]).record =
        (⟨some recCancelled, none, none⟩ : GwState).record ∧
      (onRawReactionAdd ⟨some recCancelled, none, none⟩ 2 false "🎉").record =
        (⟨some recCancelled, none, none⟩ : GwState).record ∧
      (onRawReactionRemove ⟨some recCancelled, none, none⟩ 2 "🎉").record =
        (⟨some recCancelled, none, none⟩ : GwState).record) ∧
    ((endGiveawayTask ⟨some recClaimedAll, none, none⟩ true true 7 [9]).record =
        (⟨some recClaimedAll, none, none⟩ : GwState).record ∧
      (claimTimeoutTask ⟨some recClaimedAll, none, none⟩ true true 7 [9]).record =
        (⟨some recClaimedAll, none, none⟩ : GwState).record ∧
      (handleClaimClick ⟨some recClaimedAll, none, none⟩ 2).record =
        (⟨some recClaimedAll, none, none⟩ : GwState).record ∧
      (cancelCmd ⟨some recClaimedAll, none, none⟩ true).record =
        (⟨some recClaimedAll, none, none⟩ : GwState).record ∧
      (endCmd ⟨some recClaimedAll, none, none⟩ true true true 7 [9]).record =
        (⟨some recClaimedAll, none, none⟩ : GwState).record ∧
      (onRawReactionAdd ⟨some recClaimedAll, none, none⟩ 2 false "🎉").record =
        (⟨some recClaimedAll, none, none⟩ : GwState).record ∧
      (onRawReactionRemove ⟨some recClaimedAll, none, none⟩ 2 "🎉").record =
        (⟨some recClaimedAll, none, none⟩ : GwState).record) :=
  ⟨(c2_terminal_statuses ⟨some recCancelled, none, none⟩ recCancelled rfl
      true true true false 7 2 [9] "🎉").1 rfl,
   (c2_terminal_statuses ⟨some recClaimedAll, none, none⟩ recClaimedAll rfl
      true true true false 7 2 [9] "🎉").2 rfl⟩

/-- C3: the code contradicts the claim — `_handle_claim_click` pops and
cancels the claim-expiry task unconditionally after any successful claim.
Here a giveaway has two winners `[2, 3]`; winner `2` claims, the status stays
`ended` with `claimedWinners = [2]` not covering the winners, yet the armed
claim-expiry timer is gone, so winner `3`'s unclaimed prize can never be
re-rolled (contradicting the re-roll promise the cog itself renders). -/
theorem c3_partial_claim_cancels_timer :
    (winnerIdsList recEndedTwo).length = 2 ∧
    (⟨some recEndedTwo, none, some 60⟩ : GwState).claimTask = some 60 ∧
    (handleClaimClick ⟨some recEndedTwo, none, some 60⟩ 2).record.map
      GiveawayData.claimed_winner_ids = some [2] ∧
    (handleClaimClick ⟨some recEndedTwo, none, some 60⟩ 2).record.map
      GiveawayData.status = some Status.ended ∧
    (handleClaimClick ⟨some recEndedTwo, none, some 60⟩ 2).claimTask = none := by
  decide

/-- C4: when the end timer (or explicit end-now, which calls the same task)
fires with channel and message present, the drawn winner list has exactly
`min(winnerCount, |entries|)` distinct participants from the entry set read
at the draw, the record transitions to `ended`, and an empty entry set gives
`winners = []` (still transitioning to `ended`), not an error. -/
theorem c4_initial_draw (s : GwState) (d : GiveawayData) (now : Nat) (shuffled : List Nat)
    (hrec : s.record = some d) (hact : d.status = Status.active)
    (hperm : shuffled.Perm d.entries) (hnd : d.entries.Nodup) :
    (endGiveawayTask s true true now shuffled).record =
      some (endedRecord d now (drawInitial d shuffled)) ∧
    (endedRecord d now (drawInitial d shuffled)).status = Status.ended ∧
    (endedRecord d now (drawInitial d shuffled)).winner_ids =
      some (drawInitial d shuffled) ∧
    (drawInitial d shuffled).length = min (winnerCount d) d.entries.length ∧
    (∀ u ∈ drawInitial d shuffled, u ∈ d.entries) ∧
    (drawInitial d shuffled).Nodup ∧
    (d.entries = [] → drawInitial d shuffled = []) ∧
    (endCmd s true true true now shuffled).record =
      (endGiveawayTask s true true now shuffled).record := by
  refine ⟨?_, rfl, rfl, drawInitial_length hperm, drawInitial_subset hperm,
    drawInitial_nodup hperm hnd, ?_, ?_⟩
  · simp [endGiveawayTask, hrec, hact]
  · intro he
    simp [drawInitial, he]
  · simp [endCmd, endGiveawayTask, hrec, hact]

/-- C4 witness: a concrete active giveaway with entries `[2, 3, 4]` and
`winner_count = 1` ends with one winner drawn from its entries. -/
theorem c4_initial_draw_witness :
    (endGiveawayTask ⟨some recActive, some 0, none⟩ true true 200 [3, 2, 4]).record =
      some (endedRecord recActive 200 (drawInitial recActive [3, 2, 4])) ∧
    (endedRecord recActive 200 (drawInitial recActive [3, 2, 4])).status = Status.ended ∧
    (endedRecord recActive 200 (drawInitial recActive [3, 2, 4])).winner_ids =
      some (drawInitial recActive [3, 2, 4]) ∧
    (drawInitial recActive [3, 2, 4]).length = min (winnerCount recActive) recActive.entries.length ∧
    (∀ u ∈ drawInitial recActive [3, 2, 4], u ∈ recActive.entries) ∧
    (drawInitial recActive [3, 2, 4]).Nodup ∧
    (recActive.entries = [] → drawInitial recActive [3, 2, 4] = []) ∧
    (endCmd ⟨some recActive, some 0, none⟩ true true true 200 [3, 2, 4]).record =
      (endGiveawayTask ⟨some recActive, some 0, none⟩ true true 200 [3, 2, 4]).record :=
  c4_initial_draw ⟨some recActive, some 0, none⟩ recActive 200 [3, 2, 4]
    rfl rfl (by decide) (by decide)

/-- C5: claim-window-expiry redraw and host reroll both draw
`min(winnerCount, |pool|)` distinct participants from
`pool = entries − current winners` only — a current winner is never
re-selected — and with an empty pool both leave the record (winner set and
claim deadline included) untouched. -/
theorem c5_replacement_draw (s : GwState) (d : GiveawayData) (now : Nat) (shuffled : List Nat)
    (hrec : s.record = some d) (hnd : d.entries.Nodup)
    (hperm : shuffled.Perm (replacementPool d)) :
    ((replacementPool d).isEmpty = true →
      (claimTimeoutTask s true true now shuffled).record = s.record ∧
      (reroll s true now shuffled).record = s.record) ∧
    ((replacementPool d).isEmpty = false →
      (d.status = Status.ended →
        d.claimed_winner_ids.length < (winnerIdsList d).length →
        (claimTimeoutTask s true true now shuffled).record =
          some (redrawnRecord d now (drawReplacement d shuffled))) ∧
      ((d.status = Status.ended ∨ d.status = Status.claimed) →
        (reroll s true now shuffled).record =
          some (rerolledRecord d now (drawReplacement d shuffled))) ∧
      (drawReplacement d shuffled).length = min (winnerCount d) (replacementPool d).length ∧
      (drawReplacement d shuffled).Nodup ∧
      ∀ u ∈ drawReplacement d shuffled, u ∈ d.entries ∧ u ∉ winnerIdsList d) := by
  constructor
  · intro hpool
    constructor
    · unfold claimTimeoutTask
      rw [hrec]
      dsimp only
      split_ifs <;> simp_all
    · unfold reroll
      rw [hrec]
      dsimp only
      split_ifs <;> simp_all
  · intro hpool
    refine ⟨?_, ?_, drawReplacement_length hperm, drawReplacement_nodup hperm hnd,
      drawReplacement_mem hperm⟩
    · intro hst hlt
      rcases Nat.eq_zero_or_pos d.claim_seconds with hcs | hcs <;>
        simp [claimTimeoutTask, hrec, hst, hpool, Nat.not_le.mpr hlt, hcs]
    · intro hst
      rcases hst with hst | hst <;>
        simp [reroll, hrec, hst, hpool]

/-- C5 witness: a concrete ended giveaway with entries `[2, 3, 4]`, winners
`[2, 3]` and replacement pool `[4]`, and a concrete record whose pool is
empty. -/
theorem c5_replacement_draw_witness :
    (((replacementPool recEndedTwo).isEmpty = true →
      (claimTimeoutTask ⟨some recEndedTwo, none, some 60⟩ true true 300 [4]).record =
        (⟨some recEndedTwo, none, some 60⟩ : GwState).record ∧
      (reroll ⟨some recEndedTwo, none, some 60⟩ true 300 [4]).record =
        (⟨some recEndedTwo, none, some 60⟩ : GwState).record) ∧
    ((replacementPool recEndedTwo).isEmpty = false →
      (recEndedTwo.status = Status.ended →
        recEndedTwo.claimed_winner_ids.length < (winnerIdsList recEndedTwo).length →
        (claimTimeoutTask ⟨some recEndedTwo, none, some 60⟩ true true 300 [4]).record =
          some (redrawnRecord recEndedTwo 300 (drawReplacement recEndedTwo [4]))) ∧
      ((recEndedTwo.status = Status.ended ∨ recEndedTwo.status = Status.claimed) →
        (reroll ⟨some recEndedTwo, none, some 60⟩ true 300 [4]).record =
          some (rerolledRecord recEndedTwo 300 (drawReplacement recEndedTwo [4]))) ∧
      (drawReplacement recEndedTwo [4]).length =
        min (winnerCount recEndedTwo) (replacementPool recEndedTwo).length ∧
      (drawReplacement recEndedTwo [4]).Nodup ∧
      ∀ u ∈ drawReplacement recEndedTwo [4],
        u ∈ recEndedTwo.entries ∧ u ∉ winnerIdsList recEndedTwo)) ∧
    (replacementPool recEndedTwo).isEmpty = false ∧
    drawReplacement recEndedTwo [4] = [4] :=
  ⟨c5_replacement_draw ⟨some recEndedTwo, none, some 60⟩ recEndedTwo 300 [4]
      rfl (by decide) (by decide),
   by decide, by decide⟩

/-- C6: `claimedWinners ⊆ winners` is preserved by every operation: each
draw or redraw resets `claimed_winner_ids` to `[]`, and a successful claim
click appends only a user who is in the winner list and not yet claimed. -/
theorem c6_claimed_subset_invariant (s : GwState) (hinv : ClaimSubsetInv s)
    (ch msg cm bot : Bool) (now uid : Nat) (shuffled : List Nat) (em : String) :
    ClaimSubsetInv (endGiveawayTask s ch msg now shuffled) ∧
    ClaimSubsetInv (claimTimeoutTask s ch msg now shuffled) ∧
    ClaimSubsetInv (handleClaimClick s uid) ∧
    ClaimSubsetInv (reroll s cm now shuffled) ∧
    ClaimSubsetInv (cancelCmd s cm) ∧
    ClaimSubsetInv (endCmd s cm ch msg now shuffled) ∧
    ClaimSubsetInv (onRawReactionAdd s uid bot em) ∧
    ClaimSubsetInv (onRawReactionRemove s uid em) ∧
    ClaimSubsetInv (cogLoad s now) ∧
    (∀ e : GiveawayData, ∀ ws : List Nat,
      (endedRecord e now ws).claimed_winner_ids = [] ∧
      (redrawnRecord e now ws).claimed_winner_ids = [] ∧
      (rerolledRecord e now ws).claimed_winner_ids = []) :=
  ⟨claimInv_endGiveawayTask hinv ch msg now shuffled,
   claimInv_claimTimeoutTask hinv ch msg now shuffled,
   claimInv_handleClaimClick hinv uid,
   claimInv_reroll hinv cm now shuffled,
   claimInv_cancelCmd hinv cm,
   claimInv_endCmd hinv cm ch msg now shuffled,
   claimInv_onRawReactionAdd hinv uid bot em,
   claimInv_onRawReactionRemove hinv uid em,
   claimInv_cogLoad hinv now,
   fun _ _ => ⟨rfl, rfl, rfl⟩⟩

/-- C6 witness: the invariant is preserved from a concrete ended state with
two winners and an empty claimed list. -/
theorem c6_claimed_subset_invariant_witness :
    ClaimSubsetInv (endGiveawayTask ⟨some recEndedTwo, none, some 60⟩ true true 300 [4]) ∧
    ClaimSubsetInv (claimTimeoutTask ⟨some recEndedTwo, none, some 60⟩ true true 300 [4]) ∧
    ClaimSubsetInv (handleClaimClick ⟨some recEndedTwo, none, some 60⟩ 2) ∧
    ClaimSubsetInv (reroll ⟨some recEndedTwo, none, some 60⟩ true 300 [4]) ∧
    ClaimSubsetInv (cancelCmd ⟨some recEndedTwo, none, some 60⟩ true) ∧
    ClaimSubsetInv (endCmd ⟨some recEndedTwo, none, some 60⟩ true true true 300 [4]) ∧
    ClaimSubsetInv (onRawReactionAdd ⟨some recEndedTwo, none, some 60⟩ 7 false "🎉") ∧
    ClaimSubsetInv (onRawReactionRemove ⟨some recEndedTwo, none, some 60⟩ 7 "🎉") ∧
    ClaimSubsetInv (cogLoad ⟨some recEndedTwo, none, some 60⟩ 300) ∧
    (∀ e : GiveawayData, ∀ ws : List Nat,
      (endedRecord e 300 ws).claimed_winner_ids = [] ∧
      (redrawnRecord e 300 ws).claimed_winner_ids = [] ∧
      (rerolledRecord e 300 ws).claimed_winner_ids = []) :=
  c6_claimed_subset_invariant ⟨some recEndedTwo, none, some 60⟩
    (fun d hd => by cases hd; exact List.nil_subset _)
    true true true false 300 2 [4] "🎉"

/-- C7: the reaction-add handler is idempotent in the participant and a
no-op when the record is missing, not `active`, or the marker differs from
the giveaway's entry emoji; symmetrically for the reaction-remove handler,
which is additionally a no-op when the participant is absent. -/
theorem c7_entry_idempotent (s : GwState) (uid : Nat) (bot : Bool) (em : String) :
    onRawReactionAdd (onRawReactionAdd s uid bot em) uid bot em =
      onRawReactionAdd s uid bot em ∧
    onRawReactionRemove (onRawReactionRemove s uid em) uid em =
      onRawReactionRemove s uid em ∧
    (s.record = none →
      onRawReactionAdd s uid bot em = s ∧ onRawReactionRemove s uid em = s) ∧
    (∀ d, s.record = some d → d.status ≠ Status.active →
      onRawReactionAdd s uid bot em = s ∧ onRawReactionRemove s uid em = s) ∧
    (∀ d, s.record = some d → em ≠ emojiOf d →
      onRawReactionAdd s uid bot em = s ∧ onRawReactionRemove s uid em = s) ∧
    (∀ d, s.record = some d → uid ∉ d.entries → onRawReactionRemove s uid em = s) := by
  refine ⟨?_, ?_, ?_, ?_, ?_, ?_⟩
  · cases bot with
    | true => simp [onRawReactionAdd]
    | false =>
      rcases hrec : s.record with _ | d
      · simp [onRawReactionAdd, hrec]
      · by_cases h1 : d.status ≠ Status.active
        · simp [onRawReactionAdd, hrec, h1]
        · by_cases h2 : em ≠ emojiOf d
          · simp [onRawReactionAdd, hrec, h1, h2]
          · by_cases h3 : uid ∈ d.entries
            · simp [onRawReactionAdd, hrec, h1, h2, h3]
            · rw [not_not] at h1
              rw [not_not] at h2
              have hstep : onRawReactionAdd s uid false em =
                  { record := some { d with entries := d.entries ++ [uid] },
                    endTask := s.endTask, claimTask := s.claimTask } := by
                simp [onRawReactionAdd, hrec, h1, h2, h3]
              rw [hstep]
              simp [onRawReactionAdd, emojiOf, h1, h2]
  · rcases hrec : s.record with _ | d
    · simp [onRawReactionRemove, hrec]
    · by_cases h1 : d.status ≠ Status.active
      · simp [onRawReactionRemove, hrec, h1]
      · by_cases h2 : em ≠ emojiOf d
        · simp [onRawReactionRemove, hrec, h1, h2]
        · by_cases h3 : uid ∉ d.entries
          · simp [onRawReactionRemove, hrec, h1, h2, h3]
          · rw [not_not] at h1
            rw [not_not] at h2
            rw [not_not] at h3
            have hstep : onRawReactionRemove s uid em =
                { record := some
                    { d with entries := d.entries.filter (fun u => decide (u ≠ uid)) },
                  endTask := s.endTask, claimTask := s.claimTask } := by
              simp [onRawReactionRemove, hrec, h1, h2, h3]
            rw [hstep]
            simp [onRawReactionRemove, emojiOf, h1, h2, List.mem_filter]
  · intro h
    cases bot <;> constructor <;> simp [onRawReactionAdd, onRawReactionRemove, h]
  · intro d hrec h1
    cases bot <;> constructor <;>
      simp [onRawReactionAdd, onRawReactionRemove, hrec, h1]
  · intro d hrec h2
    cases bot <;> constructor <;>
      simp [onRawReactionAdd, onRawReactionRemove, hrec, h2]
  · intro d hrec h3
    simp [onRawReactionRemove, hrec, h3]

/-- C7 witness: idempotence and the guards evaluated on a concrete active
giveaway. -/
theorem c7_entry_idempotent_witness :
    onRawReactionAdd (onRawReactionAdd ⟨some recActive, some 0, none⟩ 7 false "🎉") 7 false "🎉" =
      onRawReactionAdd ⟨some recActive, some 0, none⟩ 7 false "🎉" ∧
    onRawReactionRemove (onRawReactionRemove ⟨some recActive, some 0, none⟩ 2 "🎉") 2 "🎉" =
      onRawReactionRemove ⟨some recActive, some 0, none⟩ 2 "🎉" ∧
    ((⟨some recActive, some 0, none⟩ : GwState).record = none →
      onRawReactionAdd ⟨some recActive, some 0, none⟩ 7 false "🎉" = ⟨some recActive, some 0, none⟩ ∧
      onRawReactionRemove ⟨some recActive, some 0, none⟩ 7 "🎉" = ⟨some recActive, some 0, none⟩) ∧
    (∀ d, (⟨some recActive, some 0, none⟩ : GwState).record = some d → d.status ≠ Status.active →
      onRawReactionAdd ⟨some recActive, some 0, none⟩ 7 false "🎉" = ⟨some recActive, some 0, none⟩ ∧
      onRawReactionRemove ⟨some recActive, some 0, none⟩ 7 "🎉" = ⟨some recActive, some 0, none⟩) ∧
    (∀ d, (⟨some recActive, some 0, none⟩ : GwState).record = some d → "🎉" ≠ emojiOf d →
      onRawReactionAdd ⟨some recActive, some 0, none⟩ 7 false "🎉" = ⟨some recActive, some 0, none⟩ ∧
      onRawReactionRemove ⟨some recActive, some 0, none⟩ 7 "🎉" = ⟨some recActive, some 0, none⟩) ∧
    (∀ d, (⟨some recActive, some 0, none⟩ : GwState).record = some d → 7 ∉ d.entries →
      onRawReactionRemove ⟨some recActive, some 0, none⟩ 7 "🎉" = ⟨some recActive, some 0, none⟩) := by
  have h1 := c7_entry_idempotent ⟨some recActive, some 0, none⟩ 7 false "🎉"
  have h2 := c7_entry_idempotent ⟨some recActive, some 0, none⟩ 2 false "🎉"
  exact ⟨h1.1, h2.2.1, h1.2.2.1, h1.2.2.2.1, h1.2.2.2.2.1, h1.2.2.2.2.2⟩

/-- C8 counterexample: the claim that `claimDeadline` is cleared when the
status leaves `ended` is false — both the final winner's claim (status to
`claimed`) and the cancel command (status to `cancelled`) leave
`claim_deadline_ts` at its old value `some 1000`. -/
theorem c8_deadline_not_cleared :
    recEndedOne.status = Status.ended ∧
    recEndedOne.claim_deadline_ts = some 1000 ∧
    (handleClaimClick ⟨some recEndedOne, none, some 60⟩ 2).record.map
      GiveawayData.status = some Status.claimed ∧
    (handleClaimClick ⟨some recEndedOne, none, some 60⟩ 2).record.map
      GiveawayData.claim_deadline_ts = some (some 1000) ∧
    (cancelCmd ⟨some recEndedOne, none, some 60⟩ true).record.map
      GiveawayData.status = some Status.cancelled ∧
    (cancelCmd ⟨some recEndedOne, none, some 60⟩ true).record.map
      GiveawayData.claim_deadline_ts = some (some 1000) := by
  decide

/-- C8 (amended): `claim_deadline_ts` is never cleared when the status
leaves `ended`: the claim click and the cancel command leave it unchanged on
every state; it is only rewritten by the end transition and by redraws. -/
theorem c8_deadline_untouched (s : GwState) (uid : Nat) (cm : Bool) :
    (handleClaimClick s uid).record.map GiveawayData.claim_deadline_ts =
      s.record.map GiveawayData.claim_deadline_ts ∧
    (cancelCmd s cm).record.map GiveawayData.claim_deadline_ts =
      s.record.map GiveawayData.claim_deadline_ts := by
  constructor
  · unfold handleClaimClick
    rcases hrec : s.record with _ | d <;> dsimp only
    · rw [hrec]
    · split_ifs <;> first | rw [hrec] | rfl
  · unfold cancelCmd
    rcases hrec : s.record with _ | d <;> dsimp only
    · rw [hrec]
    · split_ifs <;> first | rw [hrec] | rfl

/-- C9: `cog_load` re-arms timers from the Store: an `active` record whose
`end_ts` is already past gets its end timer armed with delay `0` (and the
claim slot cleared by `_schedule_end_task`), and an `ended`, claim-enabled,
not fully claimed record with a stored deadline gets a claim-expiry timer
armed for the remaining duration (truncated at zero). -/
theorem c9_restart_recovery (s : GwState) (d : GiveawayData) (now : Nat)
    (hrec : s.record = some d) :
    (d.status = Status.active → d.end_ts ≤ now →
      cogLoad s now = { s with endTask := some 0, claimTask := none }) ∧
    (d.status = Status.ended → d.claimed = false → d.claim_enabled = true →
      ∀ dl, d.claim_deadline_ts = some dl → dl ≠ 0 →
        cogLoad s now = { s with claimTask := some (dl - now) }) := by
  constructor
  · intro hact hle
    simp [cogLoad, hrec, hact, Nat.sub_eq_zero_of_le hle]
  · intro hst hcl hen dl hdl hdl0
    simp [cogLoad, hrec, hst, hcl, hen, deadlineTruthy, hdl, hdl0]

/-- C9 witness: an overdue active record gets a zero-delay end timer; an
ended unclaimed record with deadline `1000` at time `400` gets a claim timer
armed for the remaining `600` seconds. -/
theorem c9_restart_recovery_witness :
    cogLoad ⟨some recActive, none, none⟩ 500 = ⟨some recActive, some 0, none⟩ ∧
    cogLoad ⟨some recEndedOne, none, none⟩ 400 = ⟨some recEndedOne, none, some 600⟩ :=
  ⟨(c9_restart_recovery ⟨some recActive, none, none⟩ recActive 500 rfl).1 rfl (by decide),
   (c9_restart_recovery ⟨some recEndedOne, none, none⟩ recEndedOne 400 rfl).2
      rfl rfl rfl 1000 rfl (by decide)⟩

/-- C10: legacy-document tolerance of the readers — with `winner_ids` absent
a non-null `winner_id` reads as the singleton list and a null one as the
empty list; with `prizes` absent a non-blank `prize` reads as a singleton
(stripped) and a blank or null one as the empty list; and the claim
operation accepts the winner read from such a legacy record. -/
theorem c10_legacy_fields (d : GiveawayData)
    (hw : d.winner_ids = none) (hp : d.prizes = none) :
    (∀ w, d.winner_id = some w → winnerIdsList d = [w]) ∧
    (d.winner_id = none → winnerIdsList d = []) ∧
    (∀ p, d.prize = some p → pyStrip p ≠ "" → prizesList d = [pyStrip p]) ∧
    (∀ p, d.prize = some p → pyStrip p = "" → prizesList d = []) ∧
    (d.prize = none → prizesList d = []) ∧
    (∀ w, d.winner_id = some w → d.status = Status.ended → d.claimed_winner_ids = [] →
      ∀ etk tk, (handleClaimClick ⟨some d, etk, tk⟩ w).record.map
        GiveawayData.claimed_winner_ids = some [w]) := by
  refine ⟨?_, ?_, ?_, ?_, ?_, ?_⟩
  · intro w hww
    simp [winnerIdsList, legacyWinnerList, hw, hww]
  · intro hww
    simp [winnerIdsList, legacyWinnerList, hw, hww]
  · intro p hpp htr
    simp [prizesList, legacyPrizeList, hp, hpp, htr]
  · intro p hpp htr
    simp [prizesList, legacyPrizeList, hp, hpp, htr]
  · intro hpp
    simp [prizesList, legacyPrizeList, hp, hpp]
  · intro w hww hst hcl etk tk
    simp [handleClaimClick, winnerIdsList, legacyWinnerList, recordAfterClaim,
      hw, hww, hst, hcl]

/-- C10 witness: the readers and the claim click evaluated on a concrete
legacy record with `winner_id = 9` and `prize = "Nitro"`. -/
theorem c10_legacy_fields_witness :
    winnerIdsList recLegacy = [9] ∧
    prizesList recLegacy = ["Nitro"] ∧
    (handleClaimClick ⟨some recLegacy, none, none⟩ 9).record.map
      GiveawayData.claimed_winner_ids = some [9] :=
 by
  refine ⟨(c10_legacy_fields recLegacy rfl rfl).1 9 rfl, ?_,
    (c10_legacy_fields recLegacy rfl rfl).2.2.2.2.2 9 rfl rfl rfl none none⟩
  rw [(c10_legacy_fields recLegacy rfl rfl).2.2.1 "Nitro" rfl (by decide)]
  decide

end Giveaway
